import Mathlib

/-!
Verification of the `handler` function of `src/main.py` (an AWS Lambda that
submits an HLS transcoding job to AWS Elemental MediaConvert).

The Python handler is shallowly embedded: JSON values become an inductive
type, the Python exceptions that can escape the handler become an error
type, and the two network calls, the template file read and the wall clock
become explicit inputs (the `World` structure).  The handler itself is a pure
function from those inputs to either a raised exception or an HTTP-style
response.
-/

/-- The kinds of Python exception that the embedded code can raise. -/
inductive PyErr where
  | keyError
  | jsonDecodeError
  | typeError
  | indexError
  | nameError
  | ioError
  | clientError
deriving DecidableEq, Repr

/-- JSON values as produced by `json.loads` / consumed by `json.dumps`.
JSON numbers are modelled as integers (every number appearing in this
development is integral). -/
inductive Json where
  | null
  | bool (b : Bool)
  | num (n : Int)
  | str (s : String)
  | arr (elems : List Json)
  | obj (fields : List (String × Json))

/-- The decimal digit character for `d < 10` (codepoint 48 + d). -/
def digitChar (d : Nat) : Char := Char.ofNat (48 + d)

/-- The decimal digit list of a natural number (most significant first),
the algorithm behind Python `str` on a non-negative int. -/
def decList (n : Nat) : List Char :=
  if _h : n < 10 then [digitChar n]
  else decList (n / 10) ++ [digitChar (n % 10)]
decreasing_by exact Nat.div_lt_self (by omega) (by omega)

/-- Decimal representation of a natural number. -/
def decimalRepr (n : Nat) : String := String.mk (decList n)

/-- Python `str` on an int (decimal, with a leading minus sign when negative). -/
def intRepr (n : Int) : String :=
  if n < 0 then "-" ++ decimalRepr n.natAbs else decimalRepr n.toNat

/-- Last index at which character `c` occurs in the character list, if any. -/
def lastIdx (cs : List Char) (c : Char) : Option Nat :=
  match cs with
  | [] => none
  | x :: rest =>
    match lastIdx rest c with
    | some i => some (i + 1)
    | none => if x = c then some 0 else none

/-- `os.path.basename` from CPython `posixpath`: the substring after the
last slash (`p[p.rfind(sep) + 1:]`). -/
def osPathBasename (p : String) : String :=
  match lastIdx p.data (Char.ofNat 47) with
  | none => p
  | some i => String.mk (p.data.drop (i + 1))

/-- The root part of `os.path.splitext` from CPython `genericpath._splitext`:
split at the last dot provided it lies after the last slash and at least one
character of the file name before it is not a dot (so that dot-files such as
`.bashrc` keep their name). -/
def splitextRoot (p : String) : String :=
  let cs := p.data
  match lastIdx cs (Char.ofNat 46) with
  | none => p
  | some d =>
    let fstart : Nat :=
      match lastIdx cs (Char.ofNat 47) with
      | none => 0
      | some s => s + 1
    let sepOk : Bool :=
      match lastIdx cs (Char.ofNat 47) with
      | none => true
      | some s => decide (s < d)
    if sepOk && ((cs.drop fstart).take (d - fstart)).any (fun c => decide (c ≠ Char.ofNat 46)) then
      String.mk (cs.take d)
    else p

/-- Line 31 of `src/main.py`:
`sourceS3Basename = os.path.splitext(os.path.basename(video_source_url))[0]`. -/
def sourceS3Basename (url : String) : String :=
  splitextRoot (osPathBasename url)

/-- Whether `needle` is a prefix of `hay` (character lists). -/
def charsPrefix : List Char → List Char → Bool
  | [], _ => true
  | _ :: _, [] => false
  | a :: as, b :: bs => a = b && charsPrefix as bs

/-- Whether `needle` occurs as a contiguous substring of `hay`; the
semantics of the Python `in` operator on two strings. -/
def strContainsSubstr (hay needle : String) : Bool :=
  go hay.data needle.data
where
  go : List Char → List Char → Bool
    | [], needle => needle.isEmpty
    | hd :: tl, needle => charsPrefix needle (hd :: tl) || go tl needle

/-- A lowercase hexadecimal digit character. -/
def hexDigitChar (d : Nat) : Char :=
  if d < 10 then digitChar d else Char.ofNat (97 + (d - 10))

/-- Four-digit lowercase hexadecimal representation of `n < 65536`. -/
def hex4 (n : Nat) : String :=
  String.mk [hexDigitChar (n / 4096 % 16), hexDigitChar (n / 256 % 16),
             hexDigitChar (n / 16 % 16), hexDigitChar (n % 16)]

/-- Escape of one character inside a JSON string literal, as produced by
Python `json.dumps` with its default `ensure_ascii=True`. -/
def jsonEscapeChar (c : Char) : String :=
  if c = Char.ofNat 34 then "\\\""
  else if c = Char.ofNat 92 then "\\\\"
  else if c = Char.ofNat 10 then "\\n"
  else if c = Char.ofNat 9 then "\\t"
  else if c = Char.ofNat 13 then "\\r"
  else if c = Char.ofNat 8 then "\\b"
  else if c = Char.ofNat 12 then "\\f"
  else if c.toNat < 32 then "\\u" ++ hex4 c.toNat
  else if c.toNat < 127 then String.mk [c]
  else if c.toNat < 65536 then "\\u" ++ hex4 c.toNat
  else
    let v := c.toNat - 65536
    "\\u" ++ hex4 (55296 + v / 1024) ++ "\\u" ++ hex4 (56320 + v % 1024)

/-- `json.dumps` on a string value: double quotes around the escaped text. -/
def jsonDumpsString (s : String) : String :=
  "\"" ++ String.join (s.data.map jsonEscapeChar) ++ "\""

mutual

/-- Python `json.dumps` with its default separators and `ensure_ascii`. -/
def jsonDumps : Json → String
  | .null => "null"
  | .bool true => "true"
  | .bool false => "false"
  | .num n => intRepr n
  | .str s => jsonDumpsString s
  | .arr xs => "[" ++ jsonDumpsList xs ++ "]"
  | .obj fs => "\x7b" ++ jsonDumpsFields fs ++ "\x7d"

/-- Comma-separated `json.dumps` of array elements. -/
def jsonDumpsList : List Json → String
  | [] => ""
  | [x] => jsonDumps x
  | x :: y :: rest => jsonDumps x ++ ", " ++ jsonDumpsList (y :: rest)

/-- Comma-separated `json.dumps` of object members. -/
def jsonDumpsFields : List (String × Json) → String
  | [] => ""
  | [(k, v)] => jsonDumpsString k ++ ": " ++ jsonDumps v
  | (k, v) :: m :: rest =>
    jsonDumpsString k ++ ": " ++ jsonDumps v ++ ", " ++ jsonDumpsFields (m :: rest)

end

/-- Escape of one character inside a Python single-quoted `repr` literal
(only the cases that can arise from the payloads this handler handles). -/
def pyReprEscapeChar (c : Char) : String :=
  if c = Char.ofNat 92 then "\\\\"
  else if c = Char.ofNat 39 then "\\\x27"
  else if c = Char.ofNat 10 then "\\n"
  else if c = Char.ofNat 9 then "\\t"
  else if c = Char.ofNat 13 then "\\r"
  else String.mk [c]

/-- Python `repr` of a string (single-quoted form). -/
def pyReprString (s : String) : String :=
  "\x27" ++ String.join (s.data.map pyReprEscapeChar) ++ "\x27"

mutual

/-- Python `repr` of a JSON-shaped value as `json.loads` would produce it
(`None`, `True`, `False`, ints, single-quoted strings, lists, dicts). -/
def pyRepr : Json → String
  | .null => "None"
  | .bool true => "True"
  | .bool false => "False"
  | .num n => intRepr n
  | .str s => pyReprString s
  | .arr xs => "[" ++ pyReprList xs ++ "]"
  | .obj fs => "\x7b" ++ pyReprFields fs ++ "\x7d"

/-- Comma-separated `repr` of list elements. -/
def pyReprList : List Json → String
  | [] => ""
  | [x] => pyRepr x
  | x :: y :: rest => pyRepr x ++ ", " ++ pyReprList (y :: rest)

/-- Comma-separated `repr` of dict members. -/
def pyReprFields : List (String × Json) → String
  | [] => ""
  | [(k, v)] => pyReprString k ++ ": " ++ pyRepr v
  | (k, v) :: m :: rest =>
    pyReprString k ++ ": " ++ pyRepr v ++ ", " ++ pyReprFields (m :: rest)

end

/-- Python `str` applied to a JSON-shaped value: the identity on strings and
`repr` on everything else (`str` and `repr` agree on `None`, booleans and
ints). -/
def pyStr : Json → String
  | .str s => s
  | j => pyRepr j

/-- First value bound to key `k`, the lookup of a Python dict modelled as an
ordered association list (dicts built by `json.loads` have unique keys). -/
def alookup : List (String × Json) → String → Option Json
  | [], _ => none
  | (k2, v) :: rest, k => if k2 = k then some v else alookup rest k

/-- Python dict item assignment: replace the value of an existing key in
place, or append a new key at the end. -/
def assocSet : List (String × Json) → String → Json → List (String × Json)
  | [], k, v => [(k, v)]
  | (k2, v2) :: rest, k, v =>
    if k2 = k then (k2, v) :: rest else (k2, v2) :: assocSet rest k v

/-- The Python `in` operator with a string on the left: key test on dicts,
element equality scan on lists, substring test on strings, and `TypeError`
on non-container values. -/
def pyContains (j : Json) (k : String) : Except PyErr Bool :=
  match j with
  | .obj fs => .ok (alookup fs k).isSome
  | .arr xs => .ok (xs.any fun v => match v with | .str s => decide (s = k) | _ => false)
  | .str s => .ok (strContainsSubstr s k)
  | _ => .error .typeError

/-- Line 18 of `src/main.py`: the short-circuiting condition
`"video_source_url" not in reqBody or ... or "uniqueId" not in reqBody`. -/
def requiredMissing (reqBody : Json) : Except PyErr Bool :=
  match pyContains reqBody "video_source_url" with
  | .error e => .error e
  | .ok c1 =>
    if !c1 then .ok true else
    match pyContains reqBody "destination_bucket" with
    | .error e => .error e
    | .ok c2 =>
      if !c2 then .ok true else
      match pyContains reqBody "destination_bucket_region" with
      | .error e => .error e
      | .ok c3 =>
        if !c3 then .ok true else
        match pyContains reqBody "uniqueId" with
        | .error e => .error e
        | .ok c4 =>
          if !c4 then .ok true else .ok false

/-- Python subscription `j[k]` with a string key: dict lookup (`KeyError`
when absent) and `TypeError` on every other JSON value. -/
def pySubscript (j : Json) (k : String) : Except PyErr Json :=
  match j with
  | .obj fs =>
    match alookup fs k with
    | some v => .ok v
    | none => .error .keyError
  | _ => .error .typeError

/-- Lines 26 to 32 of `src/main.py`: read the four request fields, apply
`str` to `uniqueId`, and perform the operations whose types the later lines
require — `os.path.basename` needs a string source URL and the concatenation
`'s3://' + destination_bucket_name` needs a string bucket name; a non-string
value raises `TypeError` just as in Python.  The region value stays raw: it
is only interpolated into an f-string at line 76. -/
def extractFields (reqBody : Json) : Except PyErr (String × String × Json × String) :=
  match pySubscript reqBody "video_source_url" with
  | .error e => .error e
  | .ok vsj =>
  match pySubscript reqBody "destination_bucket" with
  | .error e => .error e
  | .ok dbj =>
  match pySubscript reqBody "destination_bucket_region" with
  | .error e => .error e
  | .ok drj =>
  match pySubscript reqBody "uniqueId" with
  | .error e => .error e
  | .ok uidj =>
  match vsj with
  | .str vs =>
    match dbj with
    | .str db => .ok (vs, db, drj, pyStr uidj)
    | _ => .error .typeError
  | _ => .error .typeError

/-- One step of a Python subscription path: a string key or a list index. -/
inductive PathElem where
  | key (k : String)
  | idx (n : Nat)

/-- Python `j[p]`: dict lookup (missing key, including an integer index on a
string-keyed dict, raises `KeyError`), list indexing (`IndexError` out of
range, `TypeError` for a string subscript), `TypeError` otherwise. -/
def getItem (j : Json) (p : PathElem) : Except PyErr Json :=
  match j, p with
  | .obj fs, .key k =>
    match alookup fs k with
    | some v => .ok v
    | none => .error .keyError
  | .obj _, .idx _ => .error .keyError
  | .arr xs, .idx n =>
    match xs.get? n with
    | some v => .ok v
    | none => .error .indexError
  | .arr _, .key _ => .error .typeError
  | _, _ => .error .typeError

/-- Python `j[p] = v`: dict item assignment, list item assignment
(`IndexError` out of range), `TypeError` on values that do not support item
assignment.  (Assigning an integer key into a dict cannot arise here: every
dict reached by the handler paths is reached through a string key.) -/
def setItem (j : Json) (p : PathElem) (v : Json) : Except PyErr Json :=
  match j, p with
  | .obj fs, .key k => .ok (.obj (assocSet fs k v))
  | .arr xs, .idx n =>
    if n < xs.length then .ok (.arr (xs.set n v)) else .error .indexError
  | _, _ => .error .typeError

/-- Chained subscription `j[p1][p2]...[pn]`. -/
def getPath (j : Json) (path : List PathElem) : Except PyErr Json :=
  match path with
  | [] => .ok j
  | p :: rest =>
    match getItem j p with
    | .error e => .error e
    | .ok child => getPath child rest

/-- Chained subscription assignment `j[p1][p2]...[pn] = v`: every prefix is
read, the final element is assigned.  The Python statement mutates the
nested container in place; here the updated root value is returned. -/
def setPath (j : Json) (path : List PathElem) (v : Json) : Except PyErr Json :=
  match path with
  | [] => .error .typeError
  | [p] => setItem j p v
  | p :: q :: rest =>
    match getItem j p with
    | .error e => .error e
    | .ok child =>
      match setPath child (q :: rest) v with
      | .error e => .error e
      | .ok child2 => setItem j p child2

/-- The path of line 57: `jobSettings['Inputs'][0]['FileInput']`. -/
def inputsFileInputPath : List PathElem :=
  [.key "Inputs", .idx 0, .key "FileInput"]

/-- The path of lines 64 and 65:
`jobSettings['OutputGroups'][0]['OutputGroupSettings']['HlsGroupSettings']['Destination']`. -/
def hlsDestinationPath : List PathElem :=
  [.key "OutputGroups", .idx 0, .key "OutputGroupSettings",
   .key "HlsGroupSettings", .key "Destination"]

/-- A wall-clock instant at second granularity, the part of
`datetime.datetime.now()` that `strftime("%Y%m%d%H%M%S")` consumes. -/
structure DateTime where
  year : Nat
  month : Nat
  day : Nat
  hour : Nat
  minute : Nat
  second : Nat
deriving DecidableEq, Repr

/-- Two-digit zero-padded rendering, the strftime `%m %d %H %M %S` fields. -/
def pad2 (n : Nat) : String :=
  if n < 10 then "0" ++ decimalRepr n else decimalRepr n

/-- Line 33 of `src/main.py`:
`datetime.datetime.now().strftime("%Y%m%d%H%M%S")`. -/
def strftimeYmdHMS (dt : DateTime) : String :=
  decimalRepr dt.year ++ pad2 dt.month ++ pad2 dt.day
    ++ pad2 dt.hour ++ pad2 dt.minute ++ pad2 dt.second

/-- The ranges `datetime.datetime.now()` guarantees for its fields, with the
year restricted to four digits (true of every current wall-clock reading). -/
def ValidDate (dt : DateTime) : Prop :=
  1000 ≤ dt.year ∧ dt.year ≤ 9999 ∧ 1 ≤ dt.month ∧ dt.month ≤ 12 ∧
  1 ≤ dt.day ∧ dt.day ≤ 31 ∧ dt.hour ≤ 23 ∧ dt.minute ≤ 59 ∧ dt.second ≤ 59

instance (dt : DateTime) : Decidable (ValidDate dt) := by
  unfold ValidDate; infer_instance

/-- Process configuration read from `os.environ` (lines 36 and 37): the
MediaConvert role and the deployment region. -/
structure Config where
  mediaConvertRole : String
  region : String

/-- The outside world as the handler observes it in one invocation: the
wall clock, the result of reading and parsing `job.json`, the result of the
`describe_endpoints` call (collapsed to the discovered URL), and the result
of the `create_job` call (whose payload the handler never reads). -/
structure World where
  now : DateTime
  template : Except PyErr Json
  endpoints : Except PyErr String
  createJob : Except PyErr Unit

/-- The `body` member of the Lambda event: absent, present but not valid
JSON, or parsed to a JSON value. -/
inductive EventBody where
  | absent
  | invalidJson
  | json (j : Json)

/-- The Lambda event, restricted to the one member the handler reads. -/
structure Event where
  body : EventBody

/-- An HTTP-style Lambda proxy response. -/
structure Response where
  statusCode : Nat
  body : String
  headers : List (String × String)

/-- The `outputData` dict of lines 70 to 76.  `final_video_url` holds the
value read back from the job settings (a JSON value); the other four members
are strings built by the handler. -/
structure OutputData where
  final_video_url : Json
  thumbnail_url : String
  video_s3_key : String
  video_s3_path : String
  final_video_hls_url : String

/-- `outputData` as the JSON object `json.dumps` receives, in insertion
order. -/
def outputJson (od : OutputData) : Json :=
  .obj [("final_video_url", od.final_video_url),
        ("thumbnail_url", .str od.thumbnail_url),
        ("video_s3_key", .str od.video_s3_key),
        ("video_s3_path", .str od.video_s3_path),
        ("final_video_hls_url", .str od.final_video_hls_url)]

/-- Line 62 of `src/main.py`:
`video_S3Key = f"/public/.../HLS/..."` with the unique id, the timestamp
string and the source base name interpolated. -/
def videoS3Key (uniqueId timestamp basename : String) : String :=
  "/public/" ++ uniqueId ++ "/" ++ timestamp ++ "/HLS/" ++ basename

/-- Line 76 of `src/main.py`: the constructed public HTTPS URL
`https://<bucket>.s3.<region>.amazonaws.com<key>.m3u8`. -/
def finalVideoHlsUrl (bucket region key : String) : String :=
  "https://" ++ bucket ++ ".s3." ++ region ++ ".amazonaws.com" ++ key ++ ".m3u8"

/-- The headers attached to every response the handler builds. -/
def stdHeaders : List (String × String) :=
  [("Content-Type", "application/json"), ("Access-Control-Allow-Origin", "*")]

/-- The validation failure response of lines 19 to 23. -/
def validationResponse : Response :=
  { statusCode := 400,
    body := jsonDumps (.str "Error: Required fields are missing in request body"),
    headers := stdHeaders }

/-- The body of the `try` block (lines 44 to 76): load the template, discover
the endpoint, fill in the source and destination fields, submit the job and
build `outputData`.  Any escaping exception is the value of the `.error`
case. -/
def runTry (ext : World) (vs db : String) (drj : Json) (uniqueId : String) :
    Except PyErr OutputData :=
  match ext.template with
  | .error e => .error e
  | .ok jobSettings =>
  match ext.endpoints with
  | .error e => .error e
  | .ok _ =>
  match setPath jobSettings inputsFileInputPath (.str vs) with
  | .error e => .error e
  | .ok js1 =>
    match setPath js1 hlsDestinationPath
        (.str ("s3://" ++ db ++ videoS3Key uniqueId (strftimeYmdHMS ext.now) (sourceS3Basename vs))) with
    | .error e => .error e
    | .ok js2 =>
    match ext.createJob with
    | .error e => .error e
    | .ok _ =>
    match getPath js2 hlsDestinationPath with
    | .error e => .error e
    | .ok fvu =>
      .ok { final_video_url := fvu,
            thumbnail_url := "",
            video_s3_key := videoS3Key uniqueId (strftimeYmdHMS ext.now) (sourceS3Basename vs),
            video_s3_path :=
              "s3://" ++ db ++ videoS3Key uniqueId (strftimeYmdHMS ext.now) (sourceS3Basename vs),
            final_video_hls_url := finalVideoHlsUrl db (pyStr drj)
              (videoS3Key uniqueId (strftimeYmdHMS ext.now) (sourceS3Basename vs)) }

/-- The embedded `handler` of `src/main.py`, returning the response paired
with the `outputData` dict when one was built.  The `finally` block of the
source returns `json.dumps(outputData)`; when the `try` block raised,
`outputData` was never assigned, so that expression itself raises
`NameError`, which replaces the re-raised original exception — the failure
path therefore produces no response at all. -/
def handlerCore (_cfg : Config) (ext : World) (event : Event) :
    Except PyErr (Response × Option OutputData) :=
  match event.body with
  | .absent => .error .keyError
  | .invalidJson => .error .jsonDecodeError
  | .json reqBody =>
  match requiredMissing reqBody with
  | .error e => .error e
  | .ok true => .ok (validationResponse, none)
  | .ok false =>
  match extractFields reqBody with
  | .error e => .error e
  | .ok (vs, db, drj, uniqueId) =>
  match runTry ext vs db drj uniqueId with
  | .error _ => .error .nameError
  | .ok od =>
    .ok ({ statusCode := 200, body := jsonDumps (outputJson od),
           headers := stdHeaders }, some od)

/-- The embedded `handler`, response only (`cfg` is threaded for fidelity to
the environment reads of lines 36 and 37; its values go to the MediaConvert
client and `create_job`, which are external). -/
def handler (cfg : Config) (ext : World) (event : Event) : Except PyErr Response :=
  match handlerCore cfg ext event with
  | .error e => .error e
  | .ok (r, _) => .ok r

/-! ### Sample inputs used by the concrete witnesses -/

/-- Modelled from the spec: the static `job.json` template (not under
`src/`), "a static, externally supplied configuration document describing
transcoding parameters (inputs, output groups, packaging settings) with
placeholder slots for the source URL and destination path" — reduced to the
two slots the handler writes. -/
def jobTemplate : Json :=
  Json.obj [("Inputs", Json.arr [Json.obj [("FileInput", Json.str "")]]),
            ("OutputGroups", Json.arr
              [Json.obj [("OutputGroupSettings",
                 Json.obj [("HlsGroupSettings",
                   Json.obj [("Destination", Json.str "")])])]])]

/-- A sample process configuration. -/
def sampleConfig : Config :=
  { mediaConvertRole := "arn:aws:iam::123456789012:role/MediaConvertRole",
    region := "us-east-1" }

/-- A sample wall-clock instant. -/
def sampleNow : DateTime :=
  { year := 2024, month := 1, day := 1, hour := 0, minute := 0, second := 0 }

/-- A sample healthy outside world: the template loads, the endpoint is
discovered, the job submission succeeds. -/
def sampleWorld : World where
  now := sampleNow
  template := .ok jobTemplate
  endpoints := .ok "https://abcd1234.mediaconvert.us-east-1.amazonaws.com"
  createJob := .ok ()

/-- The sample wall-clock instant one second later. -/
def sampleNowLater : DateTime := { sampleNow with second := 1 }

/-- The same world one second later. -/
def sampleWorldLater : World :=
  { sampleWorld with now := sampleNowLater }

/-- The same world with a failing `create_job` call. -/
def sampleWorldJobFails : World :=
  { sampleWorld with createJob := .error .clientError }

/-- A sample valid request body. -/
def sampleFields : List (String × Json) :=
  [("video_source_url", Json.str "https://example.com/in/clip.mp4"),
   ("destination_bucket", Json.str "my-bucket"),
   ("destination_bucket_region", Json.str "us-east-1"),
   ("uniqueId", Json.num 42)]

/-- The sample request body with the `uniqueId` member removed. -/
def sampleFieldsNoUid : List (String × Json) :=
  [("video_source_url", Json.str "https://example.com/in/clip.mp4"),
   ("destination_bucket", Json.str "my-bucket"),
   ("destination_bucket_region", Json.str "us-east-1")]

/-- The event carrying the sample valid request body. -/
def sampleEvent : Event := { body := .json (.obj sampleFields) }

/-- Reading a digit list back as a number, used to invert the renderers. -/
def valFrom (acc : Nat) (cs : List Char) : Nat :=
  cs.foldl (fun a c => 10 * a + (c.toNat - 48)) acc

/-- The `outputData` dict the handler builds when every step succeeds, as a
function of the bucket, the raw region value, the stringified unique id, the
timestamp string and the source base name. -/
def successOutput (db : String) (drj : Json) (uid ts base : String) : OutputData :=
  { final_video_url := .str ("s3://" ++ db ++ videoS3Key uid ts base),
    thumbnail_url := "",
    video_s3_key := videoS3Key uid ts base,
    video_s3_path := "s3://" ++ db ++ videoS3Key uid ts base,
    final_video_hls_url := finalVideoHlsUrl db (pyStr drj) (videoS3Key uid ts base) }

/-- Modelled from the spec ("taking the last path segment"): scan the
characters, restarting the segment after every slash. -/
def segAux : List Char → List Char → List Char
  | [], acc => acc
  | x :: rest, acc =>
    if x = Char.ofNat 47 then segAux rest [] else segAux rest (acc ++ [x])

/-- Modelled from the spec: the last path segment of a URL. -/
def lastPathSegment (url : String) : String := String.mk (segAux url.data [])

/-- Modelled from the spec ("stripping its extension"): remove the suffix
from the last dot on, unless every character before that dot is itself a dot
(a leading-dot file name has no extension). -/
def stripExtension (name : String) : String :=
  match lastIdx name.data (Char.ofNat 46) with
  | none => name
  | some d =>
    if (name.data.take d).all (fun c => decide (c = Char.ofNat 46)) then name
    else String.mk (name.data.take d)

/-- Whether a JSON value is an object. -/
def jsonIsObj : Json → Bool
  | .obj _ => true
  | _ => false

/-- The `outputData` of the sample success run (the timestamp and the
stringified id kept symbolic). -/
def sampleOd : OutputData :=
  successOutput "my-bucket" (.str "us-east-1") (pyStr (.num 42)) (strftimeYmdHMS sampleNow)
    (sourceS3Basename "https://example.com/in/clip.mp4")

/-- The response of the sample success run. -/
def sampleResp : Response :=
  { statusCode := 200, body := jsonDumps (outputJson sampleOd), headers := stdHeaders }

/-- The `outputData` of the sample success run one second later. -/
def sampleOdLater : OutputData :=
  successOutput "my-bucket" (.str "us-east-1") (pyStr (.num 42)) (strftimeYmdHMS sampleNowLater)
    (sourceS3Basename "https://example.com/in/clip.mp4")

/-- The response of the sample success run one second later. -/
def sampleRespLater : Response :=
  { statusCode := 200, body := jsonDumps (outputJson sampleOdLater), headers := stdHeaders }

/-! ### Decimal rendering lemmas -/

theorem digitChar_toNat (d : Nat) (h : d < 10) : (digitChar d).toNat = 48 + d := by
  interval_cases d <;> decide

theorem digitChar_isDigit (d : Nat) (h : d < 10) : (digitChar d).isDigit = true := by
  interval_cases d <;> decide

theorem decList_length_of_lt_ten (n : Nat) (h : n < 10) : (decList n).length = 1 := by
  rw [decList, dif_pos h]; rfl

theorem decList_length (k : Nat) : ∀ n : Nat, 10 ^ k ≤ n → n < 10 ^ (k + 1) →
    (decList n).length = k + 1 := by
  induction k with
  | zero =>
    intro n _ h2
    exact decList_length_of_lt_ten n (by simpa using h2)
  | succ k ih =>
    intro n h1 h2
    have hten : (10 : Nat) ≤ 10 ^ (k + 1) := by
      calc (10 : Nat) = 10 ^ 1 := by norm_num
        _ ≤ 10 ^ (k + 1) := Nat.pow_le_pow_right (by omega) (by omega)
    have h10 : ¬ n < 10 := by omega
    rw [decList, dif_neg h10, List.length_append]
    have hdiv1 : 10 ^ k ≤ n / 10 := by
      rw [Nat.le_div_iff_mul_le (by omega)]
      calc 10 ^ k * 10 = 10 ^ (k + 1) := (pow_succ 10 k).symm
        _ ≤ n := h1
    have hdiv2 : n / 10 < 10 ^ (k + 1) := by
      rw [Nat.div_lt_iff_lt_mul (by omega)]
      calc n < 10 ^ (k + 2) := h2
        _ = 10 ^ (k + 1) * 10 := pow_succ 10 (k + 1)
    rw [ih (n / 10) hdiv1 hdiv2]
    rfl

theorem decList_isDigit (n : Nat) : (decList n).all Char.isDigit = true := by
  induction n using Nat.strong_induction_on with
  | _ n ih =>
    rw [decList]
    by_cases h : n < 10
    · rw [dif_pos h]
      simp [digitChar_isDigit n h]
    · rw [dif_neg h]
      rw [List.all_append]
      have h1 := ih (n / 10) (Nat.div_lt_self (by omega) (by omega))
      have h2 := digitChar_isDigit (n % 10) (Nat.mod_lt _ (by omega))
      simp [h1, h2]

theorem valFrom_zero_decList (n : Nat) : valFrom 0 (decList n) = n := by
  induction n using Nat.strong_induction_on with
  | _ n ih =>
    rw [decList]
    by_cases h : n < 10
    · rw [dif_pos h]
      simp [valFrom, digitChar_toNat n h]
    · rw [dif_neg h]
      unfold valFrom
      rw [List.foldl_append]
      have hrec := ih (n / 10) (Nat.div_lt_self (by omega) (by omega))
      unfold valFrom at hrec
      rw [hrec]
      simp only [List.foldl_cons, List.foldl_nil,
        digitChar_toNat (n % 10) (Nat.mod_lt _ (by omega))]
      omega

theorem decimalRepr_data (n : Nat) : (decimalRepr n).data = decList n := rfl

theorem decimalRepr_inj (a b : Nat) (h : (decimalRepr a).data = (decimalRepr b).data) :
    a = b := by
  rw [decimalRepr_data, decimalRepr_data] at h
  calc a = valFrom 0 (decList a) := (valFrom_zero_decList a).symm
    _ = valFrom 0 (decList b) := by rw [h]
    _ = b := valFrom_zero_decList b

theorem pad2_data (n : Nat) :
    (pad2 n).data = if n < 10 then Char.ofNat 48 :: decList n else decList n := by
  unfold pad2
  by_cases h : n < 10
  · rw [if_pos h, if_pos h]
    rfl
  · rw [if_neg h, if_neg h]
    rfl

theorem valFrom_zero_pad2 (n : Nat) : valFrom 0 (pad2 n).data = n := by
  rw [pad2_data]
  by_cases h : n < 10
  · rw [if_pos h]
    have : valFrom 0 (Char.ofNat 48 :: decList n) = valFrom 0 (decList n) := by
      unfold valFrom
      simp
    rw [this, valFrom_zero_decList]
  · rw [if_neg h, valFrom_zero_decList]

theorem pad2_inj (a b : Nat) (h : (pad2 a).data = (pad2 b).data) : a = b := by
  calc a = valFrom 0 (pad2 a).data := (valFrom_zero_pad2 a).symm
    _ = valFrom 0 (pad2 b).data := by rw [h]
    _ = b := valFrom_zero_pad2 b

theorem pad2_data_length (n : Nat) (h : n ≤ 99) : (pad2 n).data.length = 2 := by
  rw [pad2_data]
  by_cases h10 : n < 10
  · rw [if_pos h10]
    simp [decList_length_of_lt_ten n h10]
  · rw [if_neg h10]
    exact decList_length 1 n (by omega) (by norm_num; omega)

theorem pad2_isDigit (n : Nat) : (pad2 n).data.all Char.isDigit = true := by
  rw [pad2_data]
  by_cases h : n < 10
  · rw [if_pos h]
    simp only [List.all_cons, Bool.and_eq_true]
    exact ⟨by decide, decList_isDigit n⟩
  · rw [if_neg h]
    exact decList_isDigit n

/-! ### The timestamp string: 14 digits, injective on valid datetimes -/

theorem strftime_data (dt : DateTime) :
    (strftimeYmdHMS dt).data =
      (decimalRepr dt.year).data ++ (pad2 dt.month).data ++ (pad2 dt.day).data
        ++ (pad2 dt.hour).data ++ (pad2 dt.minute).data ++ (pad2 dt.second).data := by
  simp [strftimeYmdHMS, String.data_append]

theorem year_data_length (y : Nat) (h1 : 1000 ≤ y) (h2 : y ≤ 9999) :
    (decimalRepr y).data.length = 4 := by
  rw [decimalRepr_data]
  exact decList_length 3 y (by norm_num; omega) (by norm_num; omega)

theorem strftime_length (dt : DateTime) (h : ValidDate dt) :
    (strftimeYmdHMS dt).length = 14 := by
  obtain ⟨h1, h2, h3, h4, h5, h6, h7, h8, h9⟩ := h
  have : (strftimeYmdHMS dt).length = (strftimeYmdHMS dt).data.length := rfl
  rw [this, strftime_data]
  simp only [List.length_append]
  rw [year_data_length dt.year h1 h2,
      pad2_data_length dt.month (by omega), pad2_data_length dt.day (by omega),
      pad2_data_length dt.hour (by omega), pad2_data_length dt.minute (by omega),
      pad2_data_length dt.second (by omega)]

theorem strftime_isDigit (dt : DateTime) :
    (strftimeYmdHMS dt).data.all Char.isDigit = true := by
  rw [strftime_data]
  simp only [List.all_append, Bool.and_eq_true]
  refine ⟨⟨⟨⟨⟨?_, ?_⟩, ?_⟩, ?_⟩, ?_⟩, ?_⟩ <;>
    first
      | exact decList_isDigit _
      | exact pad2_isDigit _

theorem strftime_inj (d1 d2 : DateTime) (h1 : ValidDate d1) (h2 : ValidDate d2)
    (h : strftimeYmdHMS d1 = strftimeYmdHMS d2) : d1 = d2 := by
  obtain ⟨a1, a2, a3, a4, a5, a6, a7, a8, a9⟩ := h1
  obtain ⟨b1, b2, b3, b4, b5, b6, b7, b8, b9⟩ := h2
  have hd := congrArg String.data h
  rw [strftime_data, strftime_data] at hd
  have e6 := List.append_inj' hd
    (by rw [pad2_data_length d1.second (by omega), pad2_data_length d2.second (by omega)])
  have e5 := List.append_inj' e6.1
    (by rw [pad2_data_length d1.minute (by omega), pad2_data_length d2.minute (by omega)])
  have e4 := List.append_inj' e5.1
    (by rw [pad2_data_length d1.hour (by omega), pad2_data_length d2.hour (by omega)])
  have e3 := List.append_inj' e4.1
    (by rw [pad2_data_length d1.day (by omega), pad2_data_length d2.day (by omega)])
  have e2 := List.append_inj' e3.1
    (by rw [pad2_data_length d1.month (by omega), pad2_data_length d2.month (by omega)])
  cases d1
  cases d2
  simp only [DateTime.mk.injEq]
  exact ⟨decimalRepr_inj _ _ e2.1, pad2_inj _ _ e2.2, pad2_inj _ _ e3.2,
         pad2_inj _ _ e4.2, pad2_inj _ _ e5.2, pad2_inj _ _ e6.2⟩

/-! ### Association list and subscription-path lemmas -/

theorem alookup_assocSet_self (fs : List (String × Json)) (k : String) (v : Json) :
    alookup (assocSet fs k v) k = some v := by
  induction fs with
  | nil => simp [assocSet, alookup]
  | cons p rest ih =>
    by_cases h : p.1 = k
    · simp [assocSet, alookup, h]
    · simp [assocSet, alookup, h, ih]

theorem alookup_assocSet_ne (fs : List (String × Json)) (k k2 : String) (v : Json)
    (h : k ≠ k2) : alookup (assocSet fs k v) k2 = alookup fs k2 := by
  induction fs with
  | nil => simp [assocSet, alookup, h]
  | cons p rest ih =>
    by_cases hp : p.1 = k
    · simp [assocSet, alookup, hp, h]
    · simp [assocSet, alookup, hp, ih]

theorem getItem_setItem (j j2 : Json) (p : PathElem) (v : Json)
    (h : setItem j p v = .ok j2) : getItem j2 p = .ok v := by
  cases j with
  | obj fs =>
    cases p with
    | key k =>
      simp only [setItem, Except.ok.injEq] at h
      subst h
      simp [getItem, alookup_assocSet_self]
    | idx n => simp [setItem] at h
  | arr xs =>
    cases p with
    | key k => simp [setItem] at h
    | idx n =>
      simp only [setItem] at h
      split at h
      · cases h
        simp_all [getItem, List.getElem?_set_self]
      · cases h
  | null => simp [setItem] at h
  | bool b => simp [setItem] at h
  | num n => simp [setItem] at h
  | str s => simp [setItem] at h

theorem getPath_setPath (path : List PathElem) (j j2 v : Json)
    (h : setPath j path v = .ok j2) (hne : path ≠ []) :
    getPath j2 path = .ok v := by
  induction path generalizing j j2 with
  | nil => exact absurd rfl hne
  | cons p rest ih =>
    cases rest with
    | nil =>
      simp only [setPath] at h
      simp [getPath, getItem_setItem j j2 p v h]
    | cons q rest2 =>
      simp only [setPath] at h
      split at h
      · cases h
      · next child hchild =>
        split at h
        · cases h
        · next child2 hchild2 =>
          have hget : getItem j2 p = .ok child2 := getItem_setItem j j2 p child2 h
          have hrec := ih child child2 hchild2 (by simp)
          simp only [getPath, hget]
          simpa [getPath] using hrec

/-! ### Inversion lemmas for the handler paths -/

theorem requiredMissing_obj (fs : List (String × Json)) :
    requiredMissing (.obj fs) =
      .ok (!((alookup fs "video_source_url").isSome &&
             (alookup fs "destination_bucket").isSome &&
             (alookup fs "destination_bucket_region").isSome &&
             (alookup fs "uniqueId").isSome)) := by
  cases h1 : (alookup fs "video_source_url").isSome <;>
  cases h2 : (alookup fs "destination_bucket").isSome <;>
  cases h3 : (alookup fs "destination_bucket_region").isSome <;>
  cases h4 : (alookup fs "uniqueId").isSome <;>
  simp [requiredMissing, pyContains, h1, h2, h3, h4]

theorem extractFields_ok_inv (reqBody : Json) (vs db : String) (drj : Json) (uid : String)
    (h : extractFields reqBody = .ok (vs, db, drj, uid)) :
    ∃ fs uidj, reqBody = .obj fs ∧
      alookup fs "video_source_url" = some (.str vs) ∧
      alookup fs "destination_bucket" = some (.str db) ∧
      alookup fs "destination_bucket_region" = some drj ∧
      alookup fs "uniqueId" = some uidj ∧ uid = pyStr uidj := by
  cases reqBody with
  | obj fs =>
    cases hv : alookup fs "video_source_url" with
    | none => simp [extractFields, pySubscript, hv] at h
    | some vsj =>
      cases hb : alookup fs "destination_bucket" with
      | none => simp [extractFields, pySubscript, hv, hb] at h
      | some dbj =>
        cases hr : alookup fs "destination_bucket_region" with
        | none => simp [extractFields, pySubscript, hv, hb, hr] at h
        | some drj2 =>
          cases hu : alookup fs "uniqueId" with
          | none => simp [extractFields, pySubscript, hv, hb, hr, hu] at h
          | some uidj =>
            cases vsj <;> cases dbj <;>
              simp [extractFields, pySubscript, hv, hb, hr, hu] at h
            obtain ⟨hvs, hdb, hdr, huid⟩ := h
            exact ⟨fs, uidj, rfl, by rw [hv, hvs], by rw [hb, hdb],
                   by rw [hr, hdr], hu, huid.symm⟩
  | null => simp [extractFields, pySubscript] at h
  | bool b => simp [extractFields, pySubscript] at h
  | num n => simp [extractFields, pySubscript] at h
  | str s => simp [extractFields, pySubscript] at h
  | arr xs => simp [extractFields, pySubscript] at h

theorem runTry_ok_inv (ext : World) (vs db : String) (drj : Json) (uid : String)
    (od : OutputData) (h : runTry ext vs db drj uid = .ok od) :
    od = successOutput db drj uid (strftimeYmdHMS ext.now) (sourceS3Basename vs) := by
  unfold runTry at h
  split at h
  · cases h
  · split at h
    · cases h
    · split at h
      · cases h
      · next js1 hset1 =>
        split at h
        · cases h
        · next js2 hset2 =>
          split at h
          · cases h
          · have hget := getPath_setPath hlsDestinationPath js1 js2 _ hset2
              (by simp [hlsDestinationPath])
            split at h
            · next e herr =>
              rw [hget] at herr
              cases herr
            · next fvu hok =>
              rw [hget] at hok
              cases hok
              cases h
              rfl

theorem handlerCore_ok_inv (cfg : Config) (ext : World) (event : Event)
    (r : Response) (x : Option OutputData)
    (h : handlerCore cfg ext event = .ok (r, x)) :
    (r = validationResponse ∧ x = none) ∨
    (∃ od, x = some od ∧
      r = { statusCode := 200, body := jsonDumps (outputJson od), headers := stdHeaders }) := by
  unfold handlerCore at h
  split at h
  · cases h
  · cases h
  · split at h
    · cases h
    · simp only [Except.ok.injEq, Prod.mk.injEq] at h
      exact .inl ⟨h.1.symm, h.2.symm⟩
    · split at h
      · cases h
      · split at h
        · cases h
        · next od hrt =>
          simp only [Except.ok.injEq, Prod.mk.injEq] at h
          exact .inr ⟨od, h.2.symm, h.1.symm⟩

theorem handlerCore_ok_some_inv (cfg : Config) (ext : World) (event : Event)
    (r : Response) (od : OutputData)
    (h : handlerCore cfg ext event = .ok (r, some od)) :
    ∃ fs vs db drj uidj,
      event.body = .json (.obj fs) ∧
      alookup fs "video_source_url" = some (.str vs) ∧
      alookup fs "destination_bucket" = some (.str db) ∧
      alookup fs "destination_bucket_region" = some drj ∧
      alookup fs "uniqueId" = some uidj ∧
      od = successOutput db drj (pyStr uidj) (strftimeYmdHMS ext.now) (sourceS3Basename vs) ∧
      r = { statusCode := 200, body := jsonDumps (outputJson od), headers := stdHeaders } := by
  unfold handlerCore at h
  split at h
  · cases h
  · cases h
  · next reqBody hbody =>
    split at h
    · cases h
    · simp at h
    · split at h
      · cases h
      · next vs db drj uniqueId hef =>
        split at h
        · cases h
        · next od2 hrt =>
          simp only [Except.ok.injEq, Prod.mk.injEq, Option.some.injEq] at h
          obtain ⟨hr, hod⟩ := h
          obtain ⟨fs, uidj, hfs, h1, h2, h3, h4, h5⟩ :=
            extractFields_ok_inv reqBody vs db drj uniqueId hef
          have hsucc := runTry_ok_inv ext vs db drj uniqueId od2 hrt
          refine ⟨fs, vs, db, drj, uidj, by rw [hbody, hfs], h1, h2, h3, h4, ?_, ?_⟩
          · rw [← hod, hsucc, h5]
          · rw [← hr, hod]

theorem handler_ok_inv (cfg : Config) (ext : World) (event : Event) (r : Response)
    (h : handler cfg ext event = .ok r) :
    ∃ x, handlerCore cfg ext event = .ok (r, x) := by
  unfold handler at h
  split at h
  · cases h
  · next r2 x2 hcore =>
    simp only [Except.ok.injEq] at h
    exact ⟨x2, by rw [hcore, h]⟩

/-! ### The base-name derivation: last path segment, extension stripped -/

theorem segAux_eq (cs : List Char) : ∀ acc,
    segAux cs acc =
      (match lastIdx cs (Char.ofNat 47) with
       | none => acc ++ cs
       | some i => cs.drop (i + 1)) := by
  induction cs with
  | nil => intro acc; simp [segAux, lastIdx]
  | cons x rest ih =>
    intro acc
    cases hli : lastIdx rest (Char.ofNat 47) with
    | some i =>
      by_cases hx : x = Char.ofNat 47 <;>
        simp [segAux, hx, lastIdx, hli, ih]
    | none =>
      by_cases hx : x = Char.ofNat 47 <;>
        simp [segAux, hx, lastIdx, hli, ih]

theorem osPathBasename_eq_lastPathSegment (url : String) :
    osPathBasename url = lastPathSegment url := by
  unfold osPathBasename lastPathSegment
  rw [segAux_eq]
  cases h : lastIdx url.data (Char.ofNat 47) with
  | none => simp
  | some i => simp

theorem lastIdx_drop_none (c : Char) : ∀ (cs : List Char) (i : Nat),
    lastIdx cs c = some i → lastIdx (cs.drop (i + 1)) c = none := by
  intro cs
  induction cs with
  | nil => intro i h; simp [lastIdx] at h
  | cons x rest ih =>
    intro i h
    cases hli : lastIdx rest c with
    | some j =>
      simp only [lastIdx, hli] at h
      cases h
      simpa using ih j hli
    | none =>
      simp only [lastIdx, hli] at h
      by_cases hx : x = c
      · rw [if_pos hx] at h
        cases h
        simpa using hli
      · rw [if_neg hx] at h
        cases h

theorem osPathBasename_no_slash (url : String) :
    lastIdx (osPathBasename url).data (Char.ofNat 47) = none := by
  unfold osPathBasename
  cases h : lastIdx url.data (Char.ofNat 47) with
  | none => exact h
  | some i => exact lastIdx_drop_none _ url.data i h

theorem any_ne_eq_not_all_eq (l : List Char) (ch : Char) :
    (l.any fun c => decide (c ≠ ch)) = !(l.all fun c => decide (c = ch)) := by
  induction l with
  | nil => rfl
  | cons x rest ih =>
    by_cases h : x = ch
    · simpa [h] using ih
    · simp [h]

theorem splitextRoot_no_slash (p : String) (hp : lastIdx p.data (Char.ofNat 47) = none) :
    splitextRoot p = stripExtension p := by
  cases hd : lastIdx p.data (Char.ofNat 46) with
  | none => simp [splitextRoot, stripExtension, hd]
  | some d =>
    simp only [splitextRoot, stripExtension, hd, hp, List.drop_zero, Nat.sub_zero,
      Bool.true_and, any_ne_eq_not_all_eq]
    cases hall : (p.data.take d).all fun c => decide (c = Char.ofNat 46) <;> simp [hall]

theorem sourceS3Basename_eq_spec (url : String) :
    sourceS3Basename url = stripExtension (lastPathSegment url) := by
  unfold sourceS3Basename
  rw [splitextRoot_no_slash (osPathBasename url) (osPathBasename_no_slash url),
      osPathBasename_eq_lastPathSegment]

/-! ### Cancellation lemmas for derived keys and paths -/

theorem videoS3Key_ts_inj (uid base ts1 ts2 : String)
    (h : videoS3Key uid ts1 base = videoS3Key uid ts2 base) : ts1 = ts2 := by
  unfold videoS3Key at h
  have hd := congrArg String.data h
  simp only [String.data_append] at hd
  have e1 := List.append_inj' hd rfl
  have e2 := List.append_inj' e1.1 rfl
  have e3 := List.append_inj e2.1 rfl
  cases ts1
  cases ts2
  exact congrArg String.mk (by simpa using e3.2)

theorem s3path_inj (db k1 k2 : String)
    (h : "s3://" ++ db ++ k1 = "s3://" ++ db ++ k2) : k1 = k2 := by
  have hd := congrArg String.data h
  simp only [String.data_append] at hd
  have e := List.append_inj hd rfl
  cases k1
  cases k2
  exact congrArg String.mk (by simpa using e.2)

/-! ### The handler treats a stringified uniqueId and the number alike -/

theorem requiredMissing_assocSet_uid (fs : List (String × Json)) (u1 u2 : Json) :
    requiredMissing (.obj (assocSet fs "uniqueId" u1)) =
    requiredMissing (.obj (assocSet fs "uniqueId" u2)) := by
  rw [requiredMissing_obj, requiredMissing_obj,
      alookup_assocSet_self, alookup_assocSet_self,
      alookup_assocSet_ne fs "uniqueId" "video_source_url" u1 (by decide),
      alookup_assocSet_ne fs "uniqueId" "video_source_url" u2 (by decide),
      alookup_assocSet_ne fs "uniqueId" "destination_bucket" u1 (by decide),
      alookup_assocSet_ne fs "uniqueId" "destination_bucket" u2 (by decide),
      alookup_assocSet_ne fs "uniqueId" "destination_bucket_region" u1 (by decide),
      alookup_assocSet_ne fs "uniqueId" "destination_bucket_region" u2 (by decide)]
  simp

theorem extractFields_assocSet_uid (fs : List (String × Json)) (u1 u2 : Json)
    (hps : pyStr u1 = pyStr u2) :
    extractFields (.obj (assocSet fs "uniqueId" u1)) =
    extractFields (.obj (assocSet fs "uniqueId" u2)) := by
  simp only [extractFields, pySubscript]
  rw [alookup_assocSet_self, alookup_assocSet_self,
      alookup_assocSet_ne fs "uniqueId" "video_source_url" u1 (by decide),
      alookup_assocSet_ne fs "uniqueId" "video_source_url" u2 (by decide),
      alookup_assocSet_ne fs "uniqueId" "destination_bucket" u1 (by decide),
      alookup_assocSet_ne fs "uniqueId" "destination_bucket" u2 (by decide),
      alookup_assocSet_ne fs "uniqueId" "destination_bucket_region" u1 (by decide),
      alookup_assocSet_ne fs "uniqueId" "destination_bucket_region" u2 (by decide)]
  simp only [hps]

theorem handlerCore_uid_str (cfg : Config) (ext : World) (fs : List (String × Json))
    (u1 u2 : Json) (hps : pyStr u1 = pyStr u2) :
    handlerCore cfg ext { body := .json (.obj (assocSet fs "uniqueId" u1)) } =
    handlerCore cfg ext { body := .json (.obj (assocSet fs "uniqueId" u2)) } := by
  unfold handlerCore
  simp only [requiredMissing_assocSet_uid fs u1 u2,
             extractFields_assocSet_uid fs u1 u2 hps]

/-! ### The validation branch -/

theorem handler_missing_field (cfg : Config) (ext : World) (fs : List (String × Json))
    (h : alookup fs "video_source_url" = none ∨ alookup fs "destination_bucket" = none ∨
         alookup fs "destination_bucket_region" = none ∨ alookup fs "uniqueId" = none) :
    handler cfg ext { body := .json (.obj fs) } = .ok validationResponse := by
  have hm : requiredMissing (.obj fs) = .ok true := by
    rw [requiredMissing_obj]
    rcases h with h | h | h | h <;> simp [h]
  unfold handler handlerCore
  simp [hm]

/-! ### The claims -/

set_option maxRecDepth 8000

/-- C1: for every request event whose JSON body (an object) is missing at
least one of the four required fields, the handler returns statusCode 400
with body the JSON-encoded string
"Error: Required fields are missing in request body" and the standard
headers, regardless of which field is missing, and for every state of the
outside world — the response does not depend on the template file, the
endpoint discovery or the job submission, because the handler returns before
attempting them. -/
theorem c1_missing_required_fields_400 (cfg : Config) (ext : World)
    (fs : List (String × Json))
    (h : alookup fs "video_source_url" = none ∨ alookup fs "destination_bucket" = none ∨
         alookup fs "destination_bucket_region" = none ∨ alookup fs "uniqueId" = none) :
    handler cfg ext { body := .json (.obj fs) } = .ok validationResponse ∧
    validationResponse.statusCode = 400 ∧
    validationResponse.body = "\"Error: Required fields are missing in request body\"" ∧
    validationResponse.headers = stdHeaders := by
  refine ⟨handler_missing_field cfg ext fs h, rfl, ?_, rfl⟩
  simp only [validationResponse, jsonDumps]
  rfl

/-- Concrete instance of C1: a request carrying every field except uniqueId. -/
theorem c1_witness :
    handler sampleConfig sampleWorld { body := .json (.obj sampleFieldsNoUid) } =
      .ok validationResponse ∧
    validationResponse.statusCode = 400 ∧
    validationResponse.body = "\"Error: Required fields are missing in request body\"" ∧
    validationResponse.headers = stdHeaders :=
  c1_missing_required_fields_400 sampleConfig sampleWorld sampleFieldsNoUid
    (Or.inr (Or.inr (Or.inr rfl)))

/-- C2, settled against the code: when the job-submission call fails on an
otherwise valid request, the handler does NOT return a statusCode 500
response — the `finally` block evaluates `json.dumps(outputData)` with
`outputData` never assigned, so a NameError escapes instead, and the
original ClientError is not the exception the caller sees either. -/
theorem c2_submission_failure_raises_nameerror_not_500 :
    handler sampleConfig sampleWorldJobFails sampleEvent = .error .nameError ∧
    (∀ r : Response, handler sampleConfig sampleWorldJobFails sampleEvent ≠ .ok r) ∧
    handler sampleConfig sampleWorldJobFails sampleEvent ≠ .error .clientError := by
  have h : handler sampleConfig sampleWorldJobFails sampleEvent = .error .nameError := rfl
  refine ⟨h, ?_, ?_⟩
  · intro r hr
    rw [h] at hr
    cases hr
  · rw [h]
    intro hc
    injection hc with hc2
    cases hc2

/-- C3: for every valid request that reaches a success response, the derived
object key is exactly the concatenation
/public/ ++ uniqueId ++ / ++ timestamp ++ /HLS/ ++ baseName, where uniqueId
is the stringified request field, baseName is the source base name without
extension, and the timestamp is the wall clock formatted as YYYYMMDDHHMMSS —
a string of 14 digits for every valid instant. -/
theorem c3_derived_object_key (cfg : Config) (ext : World)
    (fs : List (String × Json)) (vs : String) (uidj : Json)
    (r : Response) (od : OutputData)
    (h : handlerCore cfg ext { body := .json (.obj fs) } = .ok (r, some od))
    (hvs : alookup fs "video_source_url" = some (.str vs))
    (huid : alookup fs "uniqueId" = some uidj)
    (hdt : ValidDate ext.now) :
    od.video_s3_key =
      "/public/" ++ pyStr uidj ++ "/" ++ strftimeYmdHMS ext.now ++ "/HLS/"
        ++ sourceS3Basename vs ∧
    (strftimeYmdHMS ext.now).length = 14 ∧
    (strftimeYmdHMS ext.now).data.all Char.isDigit = true := by
  obtain ⟨fs2, vs2, db2, drj2, uidj2, hb, h1, h2, h3, h4, hod, hr⟩ :=
    handlerCore_ok_some_inv _ _ _ _ _ h
  have hb2 : EventBody.json (.obj fs) = EventBody.json (.obj fs2) := hb
  injection hb2 with hj
  injection hj with hfs
  subst hfs
  rw [hvs] at h1
  rw [huid] at h4
  injection h1 with h1a
  injection h1a with h1s
  subst h1s
  injection h4 with h4a
  subst h4a
  refine ⟨?_, strftime_length _ hdt, strftime_isDigit _⟩
  rw [hod]
  rfl

/-- Concrete instance of C3 at the sample success run. -/
theorem c3_witness :
    sampleOd.video_s3_key =
      "/public/" ++ pyStr (.num 42) ++ "/" ++ strftimeYmdHMS sampleNow ++ "/HLS/"
        ++ sourceS3Basename "https://example.com/in/clip.mp4" ∧
    (strftimeYmdHMS sampleNow).length = 14 ∧
    (strftimeYmdHMS sampleNow).data.all Char.isDigit = true :=
  c3_derived_object_key sampleConfig sampleWorld sampleFields
    "https://example.com/in/clip.mp4" (.num 42) sampleResp sampleOd rfl rfl rfl (by decide)

/-- C4: in every success response, final_video_hls_url is exactly
https:// ++ bucket ++ .s3. ++ region ++ .amazonaws.com ++ objectKey ++
.m3u8; in particular the spec example instance holds. -/
theorem c4_final_video_hls_url (cfg : Config) (ext : World)
    (fs : List (String × Json)) (db dr : String) (r : Response) (od : OutputData)
    (h : handlerCore cfg ext { body := .json (.obj fs) } = .ok (r, some od))
    (hdb : alookup fs "destination_bucket" = some (.str db))
    (hdr : alookup fs "destination_bucket_region" = some (.str dr)) :
    od.final_video_hls_url =
      "https://" ++ db ++ ".s3." ++ dr ++ ".amazonaws.com" ++ od.video_s3_key ++ ".m3u8" ∧
    finalVideoHlsUrl "my-bucket" "us-east-1" "/public/42/20240101000000/HLS/clip" =
      "https://my-bucket.s3.us-east-1.amazonaws.com/public/42/20240101000000/HLS/clip.m3u8" := by
  obtain ⟨fs2, vs2, db2, drj2, uidj2, hb, h1, h2, h3, h4, hod, hr⟩ :=
    handlerCore_ok_some_inv _ _ _ _ _ h
  have hb2 : EventBody.json (.obj fs) = EventBody.json (.obj fs2) := hb
  injection hb2 with hj
  injection hj with hfs
  subst hfs
  rw [hdb] at h2
  rw [hdr] at h3
  injection h2 with h2a
  injection h2a with h2s
  subst h2s
  injection h3 with h3a
  subst h3a
  refine ⟨?_, rfl⟩
  rw [hod]
  rfl

/-- Concrete instance of C4 at the sample success run. -/
theorem c4_witness :
    sampleOd.final_video_hls_url =
      "https://" ++ "my-bucket" ++ ".s3." ++ "us-east-1" ++ ".amazonaws.com"
        ++ sampleOd.video_s3_key ++ ".m3u8" ∧
    finalVideoHlsUrl "my-bucket" "us-east-1" "/public/42/20240101000000/HLS/clip" =
      "https://my-bucket.s3.us-east-1.amazonaws.com/public/42/20240101000000/HLS/clip.m3u8" :=
  c4_final_video_hls_url sampleConfig sampleWorld sampleFields "my-bucket" "us-east-1"
    sampleResp sampleOd rfl rfl rfl

/-- C5: for every video_source_url, the derived base name is the last path
segment of the URL with its extension stripped (the two spec-worded
operations composed), and in particular the spec example instance holds. -/
theorem c5_basename_last_segment_no_extension :
    (∀ url : String, sourceS3Basename url = stripExtension (lastPathSegment url)) ∧
    sourceS3Basename "https://example.com/in/clip.mp4" = "clip" :=
  ⟨sourceS3Basename_eq_spec, rfl⟩

/-- C6: in every success response, thumbnail_url is the empty string and the
status code is 200. -/
theorem c6_thumbnail_url_empty (cfg : Config) (ext : World) (event : Event)
    (r : Response) (od : OutputData)
    (h : handlerCore cfg ext event = .ok (r, some od)) :
    od.thumbnail_url = "" ∧ r.statusCode = 200 := by
  obtain ⟨fs, vs, db, drj, uidj, hb, h1, h2, h3, h4, hod, hr⟩ :=
    handlerCore_ok_some_inv _ _ _ _ _ h
  constructor
  · rw [hod]
    rfl
  · rw [hr]

/-- Concrete instance of C6 at the sample success run. -/
theorem c6_witness : sampleOd.thumbnail_url = "" ∧ sampleResp.statusCode = 200 :=
  c6_thumbnail_url_empty sampleConfig sampleWorld sampleEvent sampleResp sampleOd rfl

/-- C7: the handler is not idempotent in the timestamp — two success runs on
the identical request payload at different valid wall-clock instants derive
different object keys and different destination paths, while runs at equal
instants derive equal keys and paths (the derivation is a deterministic
function of payload and timestamp). -/
theorem c7_timestamp_nonidempotence (cfg : Config) (ext1 ext2 : World) (event : Event)
    (r1 r2 : Response) (od1 od2 : OutputData)
    (h1 : handlerCore cfg ext1 event = .ok (r1, some od1))
    (h2 : handlerCore cfg ext2 event = .ok (r2, some od2))
    (hv1 : ValidDate ext1.now) (hv2 : ValidDate ext2.now) :
    (ext1.now ≠ ext2.now →
      od1.video_s3_key ≠ od2.video_s3_key ∧ od1.video_s3_path ≠ od2.video_s3_path) ∧
    (ext1.now = ext2.now →
      od1.video_s3_key = od2.video_s3_key ∧ od1.video_s3_path = od2.video_s3_path) := by
  obtain ⟨fs1, vs1, db1, drj1, uidj1, hb1, a1, a2, a3, a4, hod1, hr1⟩ :=
    handlerCore_ok_some_inv _ _ _ _ _ h1
  obtain ⟨fs2, vs2, db2, drj2, uidj2, hb2, b1, b2, b3, b4, hod2, hr2⟩ :=
    handlerCore_ok_some_inv _ _ _ _ _ h2
  rw [hb1] at hb2
  injection hb2 with hj
  injection hj with hfs
  subst hfs
  rw [a1] at b1
  rw [a2] at b2
  rw [a4] at b4
  injection b1 with b1a
  injection b1a with b1s
  subst b1s
  injection b2 with b2a
  injection b2a with b2s
  subst b2s
  injection b4 with b4a
  subst b4a
  subst hod1
  subst hod2
  constructor
  · intro hne
    have hts : strftimeYmdHMS ext1.now ≠ strftimeYmdHMS ext2.now := by
      intro he
      exact hne (strftime_inj _ _ hv1 hv2 he)
    constructor
    · intro hk
      exact hts (videoS3Key_ts_inj _ _ _ _ hk)
    · intro hp
      exact hts (videoS3Key_ts_inj _ _ _ _ (s3path_inj _ _ _ hp))
  · intro he
    rw [he]
    exact ⟨rfl, rfl⟩

/-- Concrete instance of C7: the sample run and the run one second later
derive different keys and destination paths. -/
theorem c7_witness :
    sampleOd.video_s3_key ≠ sampleOdLater.video_s3_key ∧
    sampleOd.video_s3_path ≠ sampleOdLater.video_s3_path :=
  (c7_timestamp_nonidempotence sampleConfig sampleWorld sampleWorldLater sampleEvent
    sampleResp sampleRespLater sampleOd sampleOdLater rfl rfl (by decide) (by decide)).1
    (by decide)

/-- C8: every response the handler returns — the 400 validation response and
the success response alike — carries exactly the two headers Content-Type:
application/json and Access-Control-Allow-Origin: *. -/
theorem c8_response_headers (cfg : Config) (ext : World) (event : Event) (r : Response)
    (h : handler cfg ext event = .ok r) :
    r.headers = stdHeaders ∧
    stdHeaders = [("Content-Type", "application/json"),
                  ("Access-Control-Allow-Origin", "*")] := by
  obtain ⟨x, hcore⟩ := handler_ok_inv _ _ _ _ h
  rcases handlerCore_ok_inv _ _ _ _ _ hcore with ⟨hval, _⟩ | ⟨od, _, hr⟩
  · refine ⟨?_, rfl⟩
    rw [hval]
    rfl
  · refine ⟨?_, rfl⟩
    rw [hr]

/-- Concrete instance of C8 at the 400 validation response. -/
theorem c8_witness :
    validationResponse.headers = stdHeaders ∧
    stdHeaders = [("Content-Type", "application/json"),
                  ("Access-Control-Allow-Origin", "*")] :=
  c8_response_headers sampleConfig sampleWorld { body := .json (.obj sampleFieldsNoUid) }
    validationResponse rfl

/-- C9 counterexample: an event whose body parses to the JSON array [] — not
a JSON object — still receives the 400 validation response, refuting the
claim that the 400 response is produced only for bodies that parse as JSON
objects. -/
theorem c9_counterexample :
    handler sampleConfig sampleWorld { body := .json (.arr []) } = .ok validationResponse ∧
    validationResponse.statusCode = 400 ∧
    jsonIsObj (.arr []) = false :=
  ⟨rfl, rfl, rfl⟩

/-- C9 as amended: when the body member is absent the handler raises
KeyError, and when it is present but not valid JSON it raises
JSONDecodeError — in both cases no response is returned — and any response
the handler does return comes from an event whose body parsed as JSON,
though not necessarily as a JSON object (a JSON array can also reach the 400
response). -/
theorem c9_body_parse_amended (cfg : Config) (ext : World) :
    handler cfg ext { body := .absent } = .error .keyError ∧
    handler cfg ext { body := .invalidJson } = .error .jsonDecodeError ∧
    (∀ (event : Event) (r : Response), handler cfg ext event = .ok r →
      event.body ≠ .absent ∧ event.body ≠ .invalidJson) := by
  refine ⟨rfl, rfl, ?_⟩
  intro event r h
  cases hb : event.body with
  | absent => simp [handler, handlerCore, hb] at h
  | invalidJson => simp [handler, handlerCore, hb] at h
  | json j =>
    constructor
    · intro hc
      cases hc
    · intro hc
      cases hc

/-- Concrete instance of C9: the two failing bodies raise, and the
array-bodied event that received a response indeed parsed as JSON. -/
theorem c9_witness :
    handler sampleConfig sampleWorld { body := .absent } = .error .keyError ∧
    handler sampleConfig sampleWorld { body := .invalidJson } = .error .jsonDecodeError ∧
    (({ body := EventBody.json (.arr []) } : Event).body ≠ .absent ∧
     ({ body := EventBody.json (.arr []) } : Event).body ≠ .invalidJson) := by
  obtain ⟨ha, hi, himp⟩ := c9_body_parse_amended sampleConfig sampleWorld
  exact ⟨ha, hi, himp { body := .json (.arr []) } validationResponse rfl⟩

/-- C10: in every success response, final_video_url equals video_s3_path —
both are the string s3:// ++ bucket ++ objectKey — and uniqueId is
stringified on entry, so a numeric uniqueId and its string form yield
identical handler results. -/
theorem c10_final_video_url_eq_s3_path (cfg : Config) (ext : World)
    (fs : List (String × Json)) (db : String) (r : Response) (od : OutputData)
    (h : handlerCore cfg ext { body := .json (.obj fs) } = .ok (r, some od))
    (hdb : alookup fs "destination_bucket" = some (.str db)) :
    (od.final_video_url = .str od.video_s3_path ∧
     od.video_s3_path = "s3://" ++ db ++ od.video_s3_key) ∧
    (∀ n : Int,
      handlerCore cfg ext { body := .json (.obj (assocSet fs "uniqueId" (.num n))) } =
      handlerCore cfg ext { body := .json (.obj (assocSet fs "uniqueId" (.str (intRepr n)))) }) := by
  obtain ⟨fs2, vs2, db2, drj2, uidj2, hb, h1, h2, h3, h4, hod, hr⟩ :=
    handlerCore_ok_some_inv _ _ _ _ _ h
  have hb2 : EventBody.json (.obj fs) = EventBody.json (.obj fs2) := hb
  injection hb2 with hj
  injection hj with hfs
  subst hfs
  rw [hdb] at h2
  injection h2 with h2a
  injection h2a with h2s
  subst h2s
  refine ⟨⟨?_, ?_⟩, ?_⟩
  · rw [hod]
    rfl
  · rw [hod]
    rfl
  · intro n
    exact handlerCore_uid_str cfg ext fs (.num n) (.str (intRepr n)) (by simp [pyStr, pyRepr])

/-- Concrete instance of C10 at the sample success run and at uniqueId 7. -/
theorem c10_witness :
    (sampleOd.final_video_url = .str sampleOd.video_s3_path ∧
     sampleOd.video_s3_path = "s3://" ++ "my-bucket" ++ sampleOd.video_s3_key) ∧
    handlerCore sampleConfig sampleWorld
        { body := .json (.obj (assocSet sampleFields "uniqueId" (.num 7))) } =
      handlerCore sampleConfig sampleWorld
        { body := .json (.obj (assocSet sampleFields "uniqueId" (.str (intRepr 7)))) } := by
  obtain ⟨hmain, huid⟩ := c10_final_video_url_eq_s3_path sampleConfig sampleWorld sampleFields
    "my-bucket" sampleResp sampleOd rfl rfl
  exact ⟨hmain, huid 7⟩
